import Mathlib

/-!
Verification of the Databricks MCP server (`mcp_server_simple.py`):
a shallow embedding of its JSON-RPC dispatch loop and handlers,
with theorems about the protocol-level behaviour.

The remote Databricks SDK calls are abstracted by an oracle giving the
outcome (returned text or raised-exception message) of each remote tool
body; everything else — configuration loading, lazy client creation,
request routing, id fallbacks, exception-to-error conversion — is
embedded directly from the source.
-/

set_option maxHeartbeats 1000000

mutual

/-- A JSON value as produced by `json.loads` (numbers modelled as integers;
the requests relevant here carry only integral numbers). -/
inductive JValue where
  | null
  | bool (b : Bool)
  | num (n : Int)
  | str (s : String)
  | arr (xs : JList)
  | obj (fs : JFields)
  deriving DecidableEq

/-- A list of JSON values (array elements). -/
inductive JList where
  | nil
  | cons (x : JValue) (xs : JList)
  deriving DecidableEq

/-- Ordered fields of a JSON object. -/
inductive JFields where
  | nil
  | cons (k : String) (v : JValue) (fs : JFields)
  deriving DecidableEq

end

/-- Build a `JList` from an ordinary list. -/
def JList.ofList : List JValue → JList
  | [] => .nil
  | x :: xs => .cons x (JList.ofList xs)

/-- Convert a `JList` back to an ordinary list. -/
def JList.toList : JList → List JValue
  | .nil => []
  | .cons x xs => x :: JList.toList xs

/-- Build `JFields` from an ordinary association list. -/
def JFields.ofList : List (String × JValue) → JFields
  | [] => .nil
  | (k, v) :: fs => .cons k v (JFields.ofList fs)

/-- JSON array literal. -/
def jarr (xs : List JValue) : JValue := .arr (JList.ofList xs)

/-- JSON object literal. -/
def jobj (fs : List (String × JValue)) : JValue := .obj (JFields.ofList fs)

/-- First-match lookup among the fields of a JSON object. -/
def jlookup : JFields → String → Option JValue
  | .nil, _ => none
  | .cons k v rest, key => if k = key then some v else jlookup rest key

/-- Python type name of a value, as it appears in `AttributeError` messages. -/
def pyTypeName : JValue → String
  | .null => "NoneType"
  | .bool _ => "bool"
  | .num _ => "int"
  | .str _ => "str"
  | .arr _ => "list"
  | .obj _ => "dict"

/-- Message of the `AttributeError` raised by `v.get(...)` when `v` is not a dict. -/
def attrErrMsg (v : JValue) : String :=
  "'" ++ pyTypeName v ++ "' object has no attribute 'get'"

/-- `v.get(key, default)`: `none` models the `AttributeError` raised when the
receiver `v` is not a dict. -/
def dictGet : JValue → String → JValue → Option JValue
  | .obj fs, key, dflt => some ((jlookup fs key).getD dflt)
  | _, _, _ => none

mutual

/-- Python `repr`, to the precision the server can observe (string escaping
is not modelled; no value the server formats this way contains quotes). -/
def pyRepr : JValue → String
  | .null => "None"
  | .bool true => "True"
  | .bool false => "False"
  | .num n => toString n
  | .str s => "'" ++ s ++ "'"
  | .arr xs => "[" ++ pyReprList xs ++ "]"
  | .obj fs => "\x7b" ++ pyReprFields fs ++ "\x7d"

/-- Comma-separated reprs of array elements. -/
def pyReprList : JList → String
  | .nil => ""
  | .cons x .nil => pyRepr x
  | .cons x (.cons y rest) => pyRepr x ++ ", " ++ pyReprList (.cons y rest)

/-- Comma-separated reprs of object entries. -/
def pyReprFields : JFields → String
  | .nil => ""
  | .cons k v .nil => "'" ++ k ++ "': " ++ pyRepr v
  | .cons k v (.cons k2 v2 rest) =>
      "'" ++ k ++ "': " ++ pyRepr v ++ ", " ++ pyReprFields (.cons k2 v2 rest)

end

/-- Python `str()`, as used by the f-strings in the server's error messages. -/
def pyStr : JValue → String
  | .str s => s
  | v => pyRepr v

/-- Python truthiness of a JSON value (`if x:`, `x or y`). -/
def pyTruthy : JValue → Bool
  | .null => false
  | .bool b => b
  | .num n => n != 0
  | .str s => s != ""
  | .arr .nil => false
  | .arr (.cons _ _) => true
  | .obj .nil => false
  | .obj (.cons _ _ _) => true

/-- `DatabricksConfig` dataclass: configuration for the Databricks connection. -/
structure DatabricksConfig where
  host : String
  token : String
  workspace_id : Option String
  deriving DecidableEq

/-- The SDK's `WorkspaceClient`, observable only through the credentials it was
constructed with (its remote behaviour lives in the oracle). -/
structure WorkspaceClient where
  host : String
  token : String
  deriving DecidableEq

/-- The three environment variables the server reads (`os.getenv` gives `none`
when a variable is absent). -/
structure Env where
  DATABRICKS_HOST : Option String
  DATABRICKS_TOKEN : Option String
  DATABRICKS_WORKSPACE_ID : Option String

/-- The mutable attributes of `SimpleMCPServer`: `self.client` and `self.config`. -/
structure ServerState where
  client : Option WorkspaceClient
  config : Option DatabricksConfig
  deriving DecidableEq

/-- Python falsiness of an optional string (`not host`): absent or empty. -/
def strFalsy : Option String → Bool
  | none => true
  | some s => s == ""

/-- `SimpleMCPServer._load_config`: returns the config or raises `ValueError`
(modelled as `.error` carrying the exception message). -/
def load_config (env : Env) : Except String DatabricksConfig :=
  if strFalsy env.DATABRICKS_HOST || strFalsy env.DATABRICKS_TOKEN then
    .error "DATABRICKS_HOST and DATABRICKS_TOKEN environment variables are required"
  else
    .ok ⟨(env.DATABRICKS_HOST).getD "", (env.DATABRICKS_TOKEN).getD "",
         env.DATABRICKS_WORKSPACE_ID⟩

/-- `SimpleMCPServer._ensure_client`: creates the client lazily on first need.
`sdkInstalled` models whether the `databricks.sdk` import succeeded. Returns
the (possibly updated) state together with the client the caller will use. -/
def ensure_client (env : Env) (sdkInstalled : Bool) (st : ServerState) :
    Except String (ServerState × WorkspaceClient) :=
  match st.client with
  | some c => .ok (st, c)
  | none =>
    if sdkInstalled then
      match load_config env with
      | .error m => .error m
      | .ok cfg =>
          let c : WorkspaceClient := ⟨cfg.host, cfg.token⟩
          .ok (⟨some c, some cfg⟩, c)
    else .error "Databricks SDK not installed"

/-- Outcome of one remote tool body (`_test_connection`, `_list_clusters`, …)
run against the workspace reached through a given client: the text the body
returns, or the message of the exception it raises. The bodies are opaque
remote calls, so they are a parameter of the model. -/
def Oracle : Type := WorkspaceClient → String → List JValue → Except String String

/-- The tool-name dispatch chain inside `_handle_call_tool`, from
`self._ensure_client()` onwards: argument extraction (which can itself raise
an `AttributeError` when `arguments` is not a dict), the call of the tool
body, and the `Unknown tool` `ValueError` for unrecognized names. -/
def dispatch (oracle : Oracle) (c : WorkspaceClient) (tool_name arguments : JValue) :
    Except String String :=
  if tool_name = .str "databricks_test_connection" then
    oracle c "databricks_test_connection" []
  else if tool_name = .str "databricks_list_clusters" then
    oracle c "databricks_list_clusters" []
  else if tool_name = .str "databricks_get_cluster" then
    match dictGet arguments "cluster_id" .null with
    | none => .error (attrErrMsg arguments)
    | some v => oracle c "databricks_get_cluster" [v]
  else if tool_name = .str "databricks_list_jobs" then
    oracle c "databricks_list_jobs" []
  else if tool_name = .str "databricks_run_job" then
    match dictGet arguments "job_id" .null with
    | none => .error (attrErrMsg arguments)
    | some jid =>
      match dictGet arguments "parameters" .null with
      | none => .error (attrErrMsg arguments)
      | some ps => oracle c "databricks_run_job" [jid, ps]
  else if tool_name = .str "databricks_get_job_run" then
    match dictGet arguments "run_id" .null with
    | none => .error (attrErrMsg arguments)
    | some v => oracle c "databricks_get_job_run" [v]
  else if tool_name = .str "databricks_list_workspace" then
    match dictGet arguments "path" (.str "/") with
    | none => .error (attrErrMsg arguments)
    | some v => oracle c "databricks_list_workspace" [v]
  else .error ("Unknown tool: " ++ pyStr tool_name)

/-- A JSON-RPC success response object. -/
def resultResponse (request_id : JValue) (result : JValue) : JValue :=
  jobj [("jsonrpc", .str "2.0"), ("id", request_id), ("result", result)]

/-- A JSON-RPC error response object. -/
def errorResponse (request_id : JValue) (code : Int) (message : String) : JValue :=
  jobj [("jsonrpc", .str "2.0"), ("id", request_id),
        ("error", jobj [("code", .num code), ("message", .str message)])]

/-- The constant `result` of `_initialize_handler`. -/
def initializeResult : JValue :=
  jobj [("protocolVersion", .str "2024-11-05"),
        ("capabilities", jobj [("tools", jobj [])]),
        ("serverInfo", jobj [("name", .str "databricks-mcp"),
                             ("version", .str "1.0.0")])]

/-- `SimpleMCPServer._initialize_handler`. -/
def initialize_handler (_params request_id : JValue) : JValue :=
  resultResponse (if request_id = .null then .num 0 else request_id) initializeResult

/-- The hard-coded tool catalog of `_handle_list_tools`. -/
def toolsList : List JValue :=
  [ jobj [("name", .str "databricks_test_connection"),
          ("description", .str "Test connection to Databricks workspace"),
          ("inputSchema", jobj [("type", .str "object"),
                                ("properties", jobj []),
                                ("required", jarr [])])],
    jobj [("name", .str "databricks_list_clusters"),
          ("description", .str "List all Databricks clusters"),
          ("inputSchema", jobj [("type", .str "object"),
                                ("properties", jobj []),
                                ("required", jarr [])])],
    jobj [("name", .str "databricks_get_cluster"),
          ("description", .str "Get details of a specific cluster"),
          ("inputSchema", jobj [("type", .str "object"),
            ("properties", jobj [("cluster_id",
              jobj [("type", .str "string"),
                    ("description", .str "The cluster ID to get details for")])]),
            ("required", jarr [.str "cluster_id"])])],
    jobj [("name", .str "databricks_list_jobs"),
          ("description", .str "List all Databricks jobs"),
          ("inputSchema", jobj [("type", .str "object"),
                                ("properties", jobj []),
                                ("required", jarr [])])],
    jobj [("name", .str "databricks_run_job"),
          ("description", .str "Run a Databricks job"),
          ("inputSchema", jobj [("type", .str "object"),
            ("properties", jobj [("job_id",
              jobj [("type", .str "string"),
                    ("description", .str "The job ID to run")]),
              ("parameters",
              jobj [("type", .str "object"),
                    ("description", .str "Job parameters (optional)")])]),
            ("required", jarr [.str "job_id"])])],
    jobj [("name", .str "databricks_get_job_run"),
          ("description", .str "Get details of a job run"),
          ("inputSchema", jobj [("type", .str "object"),
            ("properties", jobj [("run_id",
              jobj [("type", .str "string"),
                    ("description", .str "The run ID to get details for")])]),
            ("required", jarr [.str "run_id"])])],
    jobj [("name", .str "databricks_list_workspace"),
          ("description", .str "List workspace contents"),
          ("inputSchema", jobj [("type", .str "object"),
            ("properties", jobj [("path",
              jobj [("type", .str "string"),
                    ("description", .str "Workspace path to list (default: /)"),
                    ("default", .str "/")])]),
            ("required", jarr [])])] ]

/-- `SimpleMCPServer._handle_list_tools`. -/
def handle_list_tools (_params request_id : JValue) : JValue :=
  resultResponse (if request_id = .null then .num 1 else request_id)
    (jobj [("tools", jarr toolsList)])

/-- The `result` payload of a successful tool call: a one-element text
content array. -/
def toolCallResult (text : String) : JValue :=
  jobj [("content", jarr [jobj [("type", .str "text"), ("text", .str text)]])]

/-- `SimpleMCPServer._handle_call_tool`. An `.error` result models the one
exception that escapes the handler: when `params` is not a dict, the
`params.get` inside the `except` block raises again, so the handler
propagates an `AttributeError` instead of returning a response. -/
def handle_call_tool (env : Env) (sdk : Bool) (oracle : Oracle) (st : ServerState)
    (params request_id : JValue) : Except String (ServerState × JValue) :=
  match params with
  | .obj fs =>
      let tool_name := (jlookup fs "name").getD .null
      let arguments := (jlookup fs "arguments").getD (jobj [])
      match ensure_client env sdk st with
      | .error m =>
          .ok (st, errorResponse (if request_id = .null then .num 3 else request_id)
                     (-32603) m)
      | .ok (st', c) =>
          match dispatch oracle c tool_name arguments with
          | .error m =>
              .ok (st', errorResponse (if request_id = .null then .num 3 else request_id)
                         (-32603) m)
          | .ok text =>
              .ok (st', resultResponse (if request_id = .null then .num 2 else request_id)
                         (toolCallResult text))
  | v => .error (attrErrMsg v)

/-- One iteration of the `run` loop on a non-blank input line. The argument
is the outcome of `json.loads` on the line: `none` for a parse failure.
Returns the new server state and the response line written, if any (`none`
on the `JSONDecodeError` path and on the generic `except Exception` path). -/
def processLine (env : Env) (sdk : Bool) (oracle : Oracle) (st : ServerState)
    (parsed : Option JValue) : ServerState × Option JValue :=
  match parsed with
  | none => (st, none)
  | some request =>
    match request with
    | .obj fs =>
        let method := (jlookup fs "method").getD .null
        let params := (jlookup fs "params").getD (jobj [])
        let request_id := (jlookup fs "id").getD .null
        if method = .str "initialize" then
          (st, some (initialize_handler params request_id))
        else if method = .str "tools/list" then
          (st, some (handle_list_tools params request_id))
        else if method = .str "tools/call" then
          match handle_call_tool env sdk oracle st params request_id with
          | .ok (st', resp) => (st', some resp)
          | .error _ => (st, none)
        else
          (st, some (errorResponse
                (if pyTruthy request_id then request_id else .num 0)
                (-32601)
                ("Method not found: " ++ pyStr method)))
    | _ => (st, none)

/-- The `run` loop over a whole sequence of parsed input lines, collecting
the response lines written. -/
def runLines (env : Env) (sdk : Bool) (oracle : Oracle) :
    ServerState → List (Option JValue) → ServerState × List JValue
  | st, [] => (st, [])
  | st, x :: xs =>
      match processLine env sdk oracle st x with
      | (st', out) =>
        match runLines env sdk oracle st' xs with
        | (st'', outs) =>
          (st'', match out with
                 | some r => r :: outs
                 | none => outs)

/-- Top-level field of a response object. -/
def respField (resp : JValue) (key : String) : Option JValue :=
  match resp with
  | .obj fs => jlookup fs key
  | _ => none

/-- The `id` of a response. -/
def respId (resp : JValue) : Option JValue := respField resp "id"

/-- The `result` member of a response, when present. -/
def respResult (resp : JValue) : Option JValue := respField resp "result"

/-- The `error` member of a response, when present. -/
def respError (resp : JValue) : Option JValue := respField resp "error"

/-- The `name` of one tool descriptor. -/
def toolName (t : JValue) : String :=
  match t with
  | .obj fs =>
      match jlookup fs "name" with
      | some (.str s) => s
      | _ => ""
  | _ => ""

/-- The names of the tools in a `tools/list` response's `result.tools` array. -/
def respToolNames (resp : JValue) : Option (List String) :=
  match respResult resp with
  | some (.obj rfs) =>
      match jlookup rfs "tools" with
      | some (.arr ts) => some ((JList.toList ts).map toolName)
      | _ => none
  | _ => none

/-- The seven tool names, in catalog order. -/
def sevenToolNames : List String :=
  ["databricks_test_connection", "databricks_list_clusters", "databricks_get_cluster",
   "databricks_list_jobs", "databricks_run_job", "databricks_get_job_run",
   "databricks_list_workspace"]

/-- Concrete fixtures used to instantiate theorems with hypotheses. -/
def env0 : Env := ⟨none, none, none⟩

/-- An environment with both credentials present. -/
def envOK : Env := ⟨some "https://dbc.example.com", some "dapi123", none⟩

/-- An oracle whose every remote call succeeds with a fixed text. -/
def oracle0 : Oracle := fun _ _ _ => .ok "ok"

/-- The client `envOK` gives rise to. -/
def client0 : WorkspaceClient := ⟨"https://dbc.example.com", "dapi123"⟩

/-- The initial server state: no client, no config. -/
def st0 : ServerState := ⟨none, none⟩

/-- A state in which the client has already been created. -/
def stC : ServerState := ⟨some client0, none⟩

/-- If the client already exists, `_ensure_client` returns it and changes nothing. -/
theorem ensure_client_some (env : Env) (sdk : Bool) (st : ServerState) (c : WorkspaceClient)
    (h : st.client = some c) : ensure_client env sdk st = .ok (st, c) := by
  simp [ensure_client, h]

/-- Once the client exists, a tool call leaves the server state unchanged. -/
theorem handle_call_tool_preserves (env : Env) (sdk : Bool) (oracle : Oracle)
    (st : ServerState) (c : WorkspaceClient) (params rid : JValue)
    (h : st.client = some c) :
    ∀ st' resp, handle_call_tool env sdk oracle st params rid = .ok (st', resp) → st' = st := by
  intro st' resp hc
  cases params with
  | obj pfs =>
      cases hd : dispatch oracle c ((jlookup pfs "name").getD .null)
          ((jlookup pfs "arguments").getD (jobj [])) with
      | error m =>
          simp [handle_call_tool, ensure_client_some env sdk st c h, hd] at hc
          exact hc.1.symm
      | ok text =>
          simp [handle_call_tool, ensure_client_some env sdk st c h, hd] at hc
          exact hc.1.symm
  | null => simp [handle_call_tool] at hc
  | bool b => simp [handle_call_tool] at hc
  | num n => simp [handle_call_tool] at hc
  | str s => simp [handle_call_tool] at hc
  | arr xs => simp [handle_call_tool] at hc

/-- Once the client exists, processing any line leaves the server state unchanged. -/
theorem processLine_preserves (env : Env) (sdk : Bool) (oracle : Oracle)
    (st : ServerState) (c : WorkspaceClient) (x : Option JValue)
    (h : st.client = some c) :
    (processLine env sdk oracle st x).1 = st := by
  cases x with
  | none => rfl
  | some v =>
    cases v with
    | obj fs =>
        rw [processLine]
        split
        · rfl
        · split
          · rfl
          · split
            · split
              · rename_i st' resp heq
                exact handle_call_tool_preserves env sdk oracle st c _ _ h st' resp heq
              · rfl
            · rfl
    | null => rfl
    | bool b => rfl
    | num n => rfl
    | str s => rfl
    | arr xs => rfl

/-- When `params` is a dict, the tool-call handler returns exactly one response,
either a success with a one-element text content array and id-fallback 2, or a
-32603 error with id-fallback 3. -/
theorem handle_call_tool_shape (env : Env) (sdk : Bool) (oracle : Oracle) (st : ServerState)
    (pfs : JFields) (rid : JValue) :
    ∃ st' resp, handle_call_tool env sdk oracle st (.obj pfs) rid = .ok (st', resp) ∧
      ((∃ text, resp = resultResponse (if rid = .null then .num 2 else rid)
                         (toolCallResult text)) ∨
       (∃ m, resp = errorResponse (if rid = .null then .num 3 else rid) (-32603) m)) := by
  cases hec : ensure_client env sdk st with
  | error m =>
      exact ⟨st, _, by simp [handle_call_tool, hec], .inr ⟨m, rfl⟩⟩
  | ok p =>
      obtain ⟨st', c⟩ := p
      cases hd : dispatch oracle c ((jlookup pfs "name").getD .null)
          ((jlookup pfs "arguments").getD (jobj [])) with
      | error m =>
          exact ⟨st', _, by simp [handle_call_tool, hec, hd], .inr ⟨m, rfl⟩⟩
      | ok text =>
          exact ⟨st', _, by simp [handle_call_tool, hec, hd], .inl ⟨text, rfl⟩⟩

/-- When `params` is not a dict, the tool-call handler propagates the
`AttributeError` raised again inside its `except` block. -/
theorem handle_call_tool_nondict (env : Env) (sdk : Bool) (oracle : Oracle)
    (st : ServerState) (params rid : JValue) (h : ∀ pfs, params ≠ .obj pfs) :
    handle_call_tool env sdk oracle st params rid = .error (attrErrMsg params) := by
  cases params with
  | obj pfs => exact absurd rfl (h pfs)
  | null => rfl
  | bool b => rfl
  | num n => rfl
  | str s => rfl
  | arr xs => rfl

/-- An unrecognized tool name falls through the whole dispatch chain to the
`Unknown tool` `ValueError`. -/
theorem dispatch_unknown (oracle : Oracle) (c : WorkspaceClient) (s : String)
    (args : JValue) (hs : s ∉ sevenToolNames) :
    dispatch oracle c (.str s) args = .error ("Unknown tool: " ++ s) := by
  simp [sevenToolNames] at hs
  obtain ⟨h1, h2, h3, h4, h5, h6, h7⟩ := hs
  simp [dispatch, h1, h2, h3, h4, h5, h6, h7, pyStr]

/-- C1: For every well-formed `tools/list` request, the response's
`result.tools` array has exactly seven entries, and their names in order are
databricks_test_connection, databricks_list_clusters, databricks_get_cluster,
databricks_list_jobs, databricks_run_job, databricks_get_job_run,
databricks_list_workspace. -/
theorem toolslist_seven_tools (env : Env) (sdk : Bool) (oracle : Oracle)
    (st : ServerState) (fs : JFields)
    (h : jlookup fs "method" = some (.str "tools/list")) :
    ∃ resp, (processLine env sdk oracle st (some (.obj fs))).2 = some resp ∧
      respToolNames resp = some sevenToolNames ∧ sevenToolNames.length = 7 := by
  refine ⟨handle_list_tools ((jlookup fs "params").getD (jobj []))
            ((jlookup fs "id").getD .null), ?_, rfl, rfl⟩
  simp [processLine, h]

/-- Witness for C1: the end-to-end `tools/list` request with id 5 yields a
response whose id is 5 and whose tool names are the seven, in order. -/
theorem toolslist_seven_tools_witness :
    ∃ resp, (processLine envOK true oracle0 st0
        (some (jobj [("jsonrpc", .str "2.0"), ("id", .num 5),
                     ("method", .str "tools/list"), ("params", jobj [])]))).2 = some resp ∧
      respToolNames resp = some sevenToolNames ∧ sevenToolNames.length = 7 :=
  toolslist_seven_tools envOK true oracle0 st0 _ rfl

/-- C3: a parsed request whose method is none of initialize, tools/list,
tools/call yields a JSON-RPC error response with code -32601 and no result. -/
theorem unknown_method_error (env : Env) (sdk : Bool) (oracle : Oracle)
    (st : ServerState) (fs : JFields)
    (h1 : (jlookup fs "method").getD .null ≠ .str "initialize")
    (h2 : (jlookup fs "method").getD .null ≠ .str "tools/list")
    (h3 : (jlookup fs "method").getD .null ≠ .str "tools/call") :
    (processLine env sdk oracle st (some (.obj fs))).2 =
      some (errorResponse
        (if pyTruthy ((jlookup fs "id").getD .null) then (jlookup fs "id").getD .null
         else .num 0)
        (-32601)
        ("Method not found: " ++ pyStr ((jlookup fs "method").getD .null))) ∧
    (∀ rid m, respResult (errorResponse rid (-32601) m) = none) := by
  constructor
  · rw [processLine]
    rw [if_neg h1, if_neg h2, if_neg h3]
  · intro rid m
    rfl

/-- Witness for C3: a request with method "foo" gets the -32601 error. -/
theorem unknown_method_error_witness :
    (processLine env0 true oracle0 st0
        (some (jobj [("method", .str "foo"), ("id", .num 9)]))).2 =
      some (errorResponse (.num 9) (-32601) "Method not found: foo") ∧
    (∀ rid m, respResult (errorResponse rid (-32601) m) = none) :=
  unknown_method_error env0 true oracle0 st0 _
    (by decide) (by decide) (by decide)

/-- C6: with the host or token environment variable absent and no client yet,
a tools/call request returns the config loader's missing-credentials message
as a -32603 error. -/
theorem missing_credentials_error (env : Env) (oracle : Oracle) (st : ServerState)
    (fs : JFields) (rid : JValue)
    (hcred : env.DATABRICKS_HOST = none ∨ env.DATABRICKS_TOKEN = none)
    (hclient : st.client = none) :
    handle_call_tool env true oracle st (.obj fs) rid =
      .ok (st, errorResponse (if rid = .null then .num 3 else rid) (-32603)
        "DATABRICKS_HOST and DATABRICKS_TOKEN environment variables are required") := by
  have hlc : load_config env =
      .error "DATABRICKS_HOST and DATABRICKS_TOKEN environment variables are required" := by
    rcases hcred with h | h <;> simp [load_config, strFalsy, h]
  have hec : ensure_client env true st =
      .error "DATABRICKS_HOST and DATABRICKS_TOKEN environment variables are required" := by
    simp [ensure_client, hclient, hlc]
  simp [handle_call_tool, hec]

/-- Witness for C6: first tool call against the empty environment. -/
theorem missing_credentials_error_witness :
    handle_call_tool env0 true oracle0 st0 (.obj .nil) .null =
      .ok (st0, errorResponse (.num 3) (-32603)
        "DATABRICKS_HOST and DATABRICKS_TOKEN environment variables are required") := by
  have := missing_credentials_error env0 oracle0 st0 .nil .null (.inl rfl) rfl
  simpa using this

/-- C5: any exception raised while ensuring the client or performing the
dispatched call is converted at the tool-call boundary into a -32603 error
carrying the exception's message; in particular an unrecognized tool name
yields a -32603 error whose message contains that name. -/
theorem toolcall_exception_to_error (env : Env) (sdk : Bool) (oracle : Oracle)
    (st : ServerState) (fs : JFields) (rid : JValue) :
    (∀ m, ensure_client env sdk st = .error m →
       handle_call_tool env sdk oracle st (.obj fs) rid =
         .ok (st, errorResponse (if rid = .null then .num 3 else rid) (-32603) m)) ∧
    (∀ st' c m, ensure_client env sdk st = .ok (st', c) →
       dispatch oracle c ((jlookup fs "name").getD .null)
         ((jlookup fs "arguments").getD (jobj [])) = .error m →
       handle_call_tool env sdk oracle st (.obj fs) rid =
         .ok (st', errorResponse (if rid = .null then .num 3 else rid) (-32603) m)) ∧
    (∀ s, jlookup fs "name" = some (.str s) → s ∉ sevenToolNames →
       ∀ st' c, ensure_client env sdk st = .ok (st', c) →
         handle_call_tool env sdk oracle st (.obj fs) rid =
           .ok (st', errorResponse (if rid = .null then .num 3 else rid) (-32603)
                 ("Unknown tool: " ++ s))) := by
  refine ⟨?_, ?_, ?_⟩
  · intro m hec
    simp [handle_call_tool, hec]
  · intro st' c m hec hd
    simp [handle_call_tool, hec, hd]
  · intro s hname hs st' c hec
    have hd := dispatch_unknown oracle c s ((jlookup fs "arguments").getD (jobj [])) hs
    simp [handle_call_tool, hec, hname, hd]

/-- Witness for C5: calling the unknown tool "bogus" with the client already
created yields the -32603 error naming it. -/
theorem toolcall_exception_to_error_witness :
    handle_call_tool envOK true oracle0 stC
        (.obj (.cons "name" (.str "bogus") .nil)) (.num 7) =
      .ok (stC, errorResponse (.num 7) (-32603) "Unknown tool: bogus") := by
  have := (toolcall_exception_to_error envOK true oracle0 stC
      (.cons "name" (.str "bogus") .nil) (.num 7)).2.2 "bogus" rfl (by decide)
      stC client0 rfl
  simpa using this

/-- C2: with the request id absent (None), the initialize handler answers with
id 0, the list-tools handler with id 1, and the tool-call handler with id 2 on
success and id 3 on error. -/
theorem fallback_ids (env : Env) (sdk : Bool) (oracle : Oracle) (st : ServerState)
    (fs : JFields) (p : JValue) :
    respId (initialize_handler p .null) = some (.num 0) ∧
    respId (handle_list_tools p .null) = some (.num 1) ∧
    (∀ st' resp, handle_call_tool env sdk oracle st (.obj fs) .null = .ok (st', resp) →
       ((∃ r, resp = resultResponse (.num 2) r) ∨
        (∃ m, resp = errorResponse (.num 3) (-32603) m))) := by
  refine ⟨rfl, rfl, ?_⟩
  intro st' resp hc
  cases hec : ensure_client env sdk st with
  | error m =>
      simp [handle_call_tool, hec] at hc
      exact .inr ⟨m, hc.2.symm⟩
  | ok pr =>
      obtain ⟨st2, c⟩ := pr
      cases hd : dispatch oracle c ((jlookup fs "name").getD .null)
          ((jlookup fs "arguments").getD (jobj [])) with
      | error m =>
          simp [handle_call_tool, hec, hd] at hc
          exact .inr ⟨m, hc.2.symm⟩
      | ok text =>
          simp [handle_call_tool, hec, hd] at hc
          exact .inl ⟨toolCallResult text, hc.2.symm⟩

/-- Witness for C2: an id-less tools/call against a server without the SDK
produces the error response with fallback id 3. -/
theorem fallback_ids_witness :
    (∃ r, errorResponse (.num 3) (-32603) "Databricks SDK not installed" =
            resultResponse (.num 2) r) ∨
    (∃ m, errorResponse (.num 3) (-32603) "Databricks SDK not installed" =
            errorResponse (.num 3) (-32603) m) :=
  (fallback_ids env0 false oracle0 st0 .nil .null).2.2 st0
    (errorResponse (.num 3) (-32603) "Databricks SDK not installed") rfl

/-- C9: for every params dict and every request id, the tool-call handler
returns exactly one well-formed response: either a result wrapping a
one-element text content array, or an error with code -32603; no exception
reaches the read loop. -/
theorem toolcall_total_shape (env : Env) (sdk : Bool) (oracle : Oracle)
    (st : ServerState) (fs : JFields) (rid : JValue) :
    ∃ st' resp, handle_call_tool env sdk oracle st (.obj fs) rid = .ok (st', resp) ∧
      ((∃ text, resp = resultResponse (if rid = .null then .num 2 else rid)
                         (toolCallResult text)) ∨
       (∃ m, resp = errorResponse (if rid = .null then .num 3 else rid) (-32603) m)) :=
  handle_call_tool_shape env sdk oracle st fs rid

/-- C10: the unknown-method error echoes the request id only when it is truthy
(null, 0, false and "" are all replaced by 0), while the three recognized
handlers substitute their fallback only when the id is exactly None. -/
theorem id_fallback_truthiness (env : Env) (sdk : Bool) (oracle : Oracle)
    (st : ServerState) (fs : JFields) (p rid : JValue)
    (h1 : (jlookup fs "method").getD .null ≠ .str "initialize")
    (h2 : (jlookup fs "method").getD .null ≠ .str "tools/list")
    (h3 : (jlookup fs "method").getD .null ≠ .str "tools/call") :
    (processLine env sdk oracle st (some (.obj fs))).2 =
      some (errorResponse
        (if pyTruthy ((jlookup fs "id").getD .null) then (jlookup fs "id").getD .null
         else .num 0)
        (-32601)
        ("Method not found: " ++ pyStr ((jlookup fs "method").getD .null))) ∧
    respId (initialize_handler p rid) = some (if rid = .null then .num 0 else rid) ∧
    respId (handle_list_tools p rid) = some (if rid = .null then .num 1 else rid) ∧
    (∀ st' resp, handle_call_tool env sdk oracle st (.obj fs) rid = .ok (st', resp) →
       respId resp = some (if rid = .null then .num 2 else rid) ∨
       respId resp = some (if rid = .null then .num 3 else rid)) := by
  refine ⟨?_, rfl, rfl, ?_⟩
  · rw [processLine]
    rw [if_neg h1, if_neg h2, if_neg h3]
  · intro st' resp hc
    cases hec : ensure_client env sdk st with
    | error m =>
        simp [handle_call_tool, hec] at hc
        right; rw [← hc.2]; rfl
    | ok pr =>
        obtain ⟨st2, c⟩ := pr
        cases hd : dispatch oracle c ((jlookup fs "name").getD .null)
            ((jlookup fs "arguments").getD (jobj [])) with
        | error m =>
            simp [handle_call_tool, hec, hd] at hc
            right; rw [← hc.2]; rfl
        | ok text =>
            simp [handle_call_tool, hec, hd] at hc
            left; rw [← hc.2]; rfl

/-- Witness for C10: an unknown-method request whose id is the falsy empty
string gets its id rewritten to 0. -/
theorem id_fallback_truthiness_witness :
    (processLine env0 true oracle0 st0
        (some (jobj [("method", .str "foo"), ("id", .str "")]))).2 =
      some (errorResponse (.num 0) (-32601) "Method not found: foo") := by
  have := (id_fallback_truthiness env0 true oracle0 st0
      (.cons "method" (.str "foo") (.cons "id" (.str "") .nil)) .null .null
      (by decide) (by decide) (by decide)).1
  simpa using this

/-- Counterexample to C4 as stated: the input line `5` parses successfully,
yet the loop writes no output line — `request.get("method")` raises an
`AttributeError` that the loop's generic `except Exception` swallows. -/
theorem parse_success_no_output_cex :
    (processLine envOK true oracle0 st0 (some (.num 5))).2 = none := rfl

/-- C4 (amended): a parse failure writes nothing; a successfully parsed line
writes exactly one response when the parsed value is a JSON object and, if its
method is tools/call, its params entry is also an object; a successfully
parsed non-object line, or a tools/call whose params is not an object, writes
nothing (the handler's internal exception is swallowed by the loop). -/
theorem line_output_discipline (env : Env) (sdk : Bool) (oracle : Oracle)
    (st : ServerState) :
    ((processLine env sdk oracle st none).2 = none) ∧
    (∀ fs : JFields,
       ((jlookup fs "method").getD .null = .str "tools/call" →
         ∃ pfs, (jlookup fs "params").getD (jobj []) = .obj pfs) →
       ∃ resp, (processLine env sdk oracle st (some (.obj fs))).2 = some resp) ∧
    (∀ v : JValue, (∀ fs, v ≠ .obj fs) →
       (processLine env sdk oracle st (some v)).2 = none) ∧
    (∀ fs : JFields, (jlookup fs "method").getD .null = .str "tools/call" →
       (∀ pfs, (jlookup fs "params").getD (jobj []) ≠ .obj pfs) →
       (processLine env sdk oracle st (some (.obj fs))).2 = none) := by
  refine ⟨rfl, ?_, ?_, ?_⟩
  · intro fs hp
    rw [processLine]
    split
    · exact ⟨_, rfl⟩
    · split
      · exact ⟨_, rfl⟩
      · split
        · rename_i hcall
          obtain ⟨pfs, hpfs⟩ := hp hcall
          obtain ⟨st', resp, heq, -⟩ :=
            handle_call_tool_shape env sdk oracle st pfs ((jlookup fs "id").getD .null)
          rw [hpfs, heq]
          exact ⟨resp, rfl⟩
        · exact ⟨_, rfl⟩
  · intro v hv
    cases v with
    | obj fs => exact absurd rfl (hv fs)
    | null => rfl
    | bool b => rfl
    | num n => rfl
    | str s => rfl
    | arr xs => rfl
  · intro fs hm hp
    have hcall := handle_call_tool_nondict env sdk oracle st
      ((jlookup fs "params").getD (jobj [])) ((jlookup fs "id").getD .null) hp
    rw [processLine]
    rw [hm]
    rw [if_neg (by decide), if_neg (by decide), if_pos rfl, hcall]

/-- Witness for C4 (amended): a tools/list line produces exactly one response. -/
theorem line_output_discipline_witness :
    ∃ resp, (processLine env0 true oracle0 st0
        (some (.obj (.cons "method" (.str "tools/list") .nil)))).2 = some resp :=
  (line_output_discipline env0 true oracle0 st0).2.1
    (.cons "method" (.str "tools/list") .nil) (by intro h; exact absurd h (by decide))

/-- C7: once the client handle exists, ensuring the client returns that very
handle without reloading the configuration, and no sequence of further
requests changes the server state. -/
theorem client_created_once (env : Env) (sdk : Bool) (oracle : Oracle)
    (c : WorkspaceClient) (st : ServerState) (xs : List (Option JValue))
    (h : st.client = some c) :
    ensure_client env sdk st = .ok (st, c) ∧
    (runLines env sdk oracle st xs).1 = st := by
  refine ⟨ensure_client_some env sdk st c h, ?_⟩
  induction xs generalizing st with
  | nil => rfl
  | cons x xs ih =>
      rw [runLines]
      have hp := processLine_preserves env sdk oracle st c x h
      rcases hpl : processLine env sdk oracle st x with ⟨st1, out⟩
      rw [hpl] at hp
      have hp1 : st1 = st := hp
      have h1 : st1.client = some c := by rw [hp1]; exact h
      have h2 := ih st1 h1
      rcases hrl : runLines env sdk oracle st1 xs with ⟨st2, outs⟩
      rw [hrl] at h2
      have h3 : st2 = st1 := h2
      dsimp only
      rw [hrl]
      dsimp only
      exact h3.trans hp1

/-- Witness for C7: with the client already created, a tools/call line and a
tools/list line leave the state untouched. -/
theorem client_created_once_witness :
    ensure_client envOK true stC = .ok (stC, client0) ∧
    (runLines envOK true oracle0 stC
      [some (jobj [("method", .str "tools/call"),
                   ("params", jobj [("name", .str "databricks_list_jobs")])]),
       some (jobj [("method", .str "tools/list")])]).1 = stC :=
  client_created_once envOK true oracle0 client0 stC _ rfl

/-- C8: initialize and tools/list requests leave the client handle and config
unchanged; any input that changes the server state is a tools/call request. -/
theorem readonly_methods_frame (env : Env) (sdk : Bool) (oracle : Oracle)
    (st : ServerState) :
    (∀ fs : JFields,
       ((jlookup fs "method").getD .null = .str "initialize" ∨
        (jlookup fs "method").getD .null = .str "tools/list") →
       (processLine env sdk oracle st (some (.obj fs))).1 = st) ∧
    (∀ x, (processLine env sdk oracle st x).1 ≠ st →
       ∃ fs, x = some (.obj fs) ∧
         (jlookup fs "method").getD .null = .str "tools/call") := by
  constructor
  · intro fs hm
    rw [processLine]
    rcases hm with hm | hm
    · rw [if_pos hm]
    · have h1 : (jlookup fs "method").getD .null ≠ .str "initialize" := by
        rw [hm]; decide
      rw [if_neg h1, if_pos hm]
  · intro x hne
    cases x with
    | none => exact absurd rfl hne
    | some v =>
      cases v with
      | obj fs =>
          refine ⟨fs, rfl, ?_⟩
          by_contra hm
          apply hne
          rw [processLine]
          by_cases hinit : (jlookup fs "method").getD .null = .str "initialize"
          · rw [if_pos hinit]
          · rw [if_neg hinit]
            by_cases hlist : (jlookup fs "method").getD .null = .str "tools/list"
            · rw [if_pos hlist]
            · rw [if_neg hlist, if_neg hm]
      | null => exact absurd rfl hne
      | bool b => exact absurd rfl hne
      | num n => exact absurd rfl hne
      | str s => exact absurd rfl hne
      | arr xs => exact absurd rfl hne

/-- Witness for C8: an initialize line leaves the fresh state unchanged. -/
theorem readonly_methods_frame_witness :
    (processLine env0 true oracle0 st0
       (some (.obj (.cons "method" (.str "initialize") .nil)))).1 = st0 :=
  (readonly_methods_frame env0 true oracle0 st0).1
    (.cons "method" (.str "initialize") .nil) (.inl rfl)
